import Mathlib

/-!
Verification of the CreatorDB request-translation proxy.

The repository contains three implementations of the same proxy:
* the first HTTP server variant (`server.ts`, first half): Express routes, a
  plain-`Error`-throwing `makeApiRequest`, raw string interpolation into URLs,
  error responses always sent with HTTP status 500;
* the second HTTP server variant (`server.ts`, second half): the same routes
  with an `ApiError` class carrying the upstream status, a `handleError`
  helper, a `sanitizeId` identifier sanitizer for `uniqueId` parameters and
  `encodeURIComponent` for the other string parameters;
* the MCP shell (`index.ts`, reproduced inside `README.md`): a tool table of
  31 tools and a `handleToolCall` dispatcher that never rejects a call early
  and serializes every error as a `{success:false, error}` JSON payload.

The definitions below embed those three implementations.  JavaScript
truthiness, destructuring defaults, `||` fallbacks, `encodeURIComponent`,
`URLSearchParams` form-encoding and `JSON.stringify` are modelled explicitly.
-/

/-- Decoded JSON values, used for the opaque `data` payload of upstream
responses and for serializing tool results (`JSON.stringify(result, null, 2)`). -/
inductive JsValue where
  | null
  | bool (b : Bool)
  | num (n : Int)
  | str (s : String)
  | arr (elems : List JsValue)
  | obj (fields : List (String × JsValue))

/-- Uppercase hexadecimal digit, as produced by `encodeURIComponent`. -/
def hexDigitUpper (n : Nat) : Char := Char.ofNat (if n < 10 then 48 + n else 55 + n)

/-- Lowercase hexadecimal digit, as produced by `JSON.stringify` string escapes. -/
def hexDigitLower (n : Nat) : Char := Char.ofNat (if n < 10 then 48 + n else 87 + n)

/-- UTF-8 byte sequence of a character (percent-encoding operates on UTF-8 bytes). -/
def utf8Bytes (c : Char) : List Nat :=
  let n := c.toNat
  if n < 128 then [n]
  else if n < 2048 then [192 + n / 64, 128 + n % 64]
  else if n < 65536 then [224 + n / 4096, 128 + (n / 64) % 64, 128 + n % 64]
  else [240 + n / 262144, 128 + (n / 4096) % 64, 128 + (n / 64) % 64, 128 + n % 64]

/-- Percent-encoding of one byte: `%XX` with uppercase hex digits. -/
def percentByte (b : Nat) : String := String.mk ['%', hexDigitUpper (b / 16), hexDigitUpper (b % 16)]

/-- Characters `encodeURIComponent` leaves untouched: ASCII letters and digits
and (by code point) the punctuation set `- _ . ! ~ * ' ( )`. -/
def isUriUnreserved (c : Char) : Bool :=
  decide (65 ≤ c.toNat ∧ c.toNat ≤ 90) || decide (97 ≤ c.toNat ∧ c.toNat ≤ 122) ||
  decide (48 ≤ c.toNat ∧ c.toNat ≤ 57) ||
  c.toNat == 45 || c.toNat == 95 || c.toNat == 46 || c.toNat == 33 ||
  c.toNat == 126 || c.toNat == 42 || c.toNat == 39 || c.toNat == 40 || c.toNat == 41

/-- JavaScript `encodeURIComponent`: unreserved characters pass through, every
other character is replaced by the percent-encoding of its UTF-8 bytes. -/
def encodeURIComponent (s : String) : String :=
  String.join (s.data.map fun c =>
    if isUriUnreserved c then String.mk [c]
    else String.join ((utf8Bytes c).map percentByte))

/-- Characters `URLSearchParams` serialization leaves untouched
(`application/x-www-form-urlencoded`): ASCII alphanumerics and `* - . _`. -/
def isFormSafe (c : Char) : Bool :=
  decide (65 ≤ c.toNat ∧ c.toNat ≤ 90) || decide (97 ≤ c.toNat ∧ c.toNat ≤ 122) ||
  decide (48 ≤ c.toNat ∧ c.toNat ≤ 57) ||
  c.toNat == 42 || c.toNat == 45 || c.toNat == 46 || c.toNat == 95

/-- Form-encoding of one string (`URLSearchParams` value serialization):
safe characters pass through, space becomes `+`, the rest is percent-encoded. -/
def formEncode (s : String) : String :=
  String.join (s.data.map fun c =>
    if isFormSafe c then String.mk [c]
    else if c.toNat == 32 then "+"
    else String.join ((utf8Bytes c).map percentByte))

/-- `URLSearchParams.toString()`: `k=v` pairs joined by `&`, both sides form-encoded. -/
def urlParamsToString (ps : List (String × String)) : String :=
  String.intercalate "&" (ps.map fun p => formEncode p.1 ++ "=" ++ formEncode p.2)

/-- Escapes of one character inside a `JSON.stringify` string literal. -/
def jsonEscapeChar (c : Char) : String :=
  if c.toNat == 34 then "\\\""
  else if c.toNat == 92 then "\\\\"
  else if c.toNat == 8 then "\\b"
  else if c.toNat == 9 then "\\t"
  else if c.toNat == 10 then "\\n"
  else if c.toNat == 12 then "\\f"
  else if c.toNat == 13 then "\\r"
  else if decide (c.toNat < 32) then
    "\\u00" ++ String.mk [hexDigitLower (c.toNat / 16), hexDigitLower (c.toNat % 16)]
  else String.mk [c]

/-- String-body escaping of `JSON.stringify`. -/
def jsonEscape (s : String) : String := String.join (s.data.map jsonEscapeChar)

/-- Quoted JSON string literal. -/
def jsonQuote (s : String) : String := "\"" ++ jsonEscape s ++ "\""

/-- Indentation prefix used by `JSON.stringify(_, null, 2)`. -/
def indentSpaces (n : Nat) : String := String.mk (List.replicate n ' ')

mutual

/-- `JSON.stringify(v, null, 2)` rendering of a value at a given indentation depth. -/
def jsValueToString (indent : Nat) : JsValue → String
  | .null => "null"
  | .bool b => if b then "true" else "false"
  | .num n => toString n
  | .str s => jsonQuote s
  | .arr xs =>
      match xs with
      | [] => "[]"
      | _ => "[\n" ++ jsArrItems (indent + 2) xs ++ "\n" ++ indentSpaces indent ++ "]"
  | .obj fs =>
      match fs with
      | [] => "\x7b\x7d"
      | _ => "\x7b\n" ++ jsObjItems (indent + 2) fs ++ "\n" ++ indentSpaces indent ++ "\x7d"

/-- Array elements of the pretty rendering, one per line. -/
def jsArrItems (indent : Nat) : List JsValue → String
  | [] => ""
  | [x] => indentSpaces indent ++ jsValueToString indent x
  | x :: xs => indentSpaces indent ++ jsValueToString indent x ++ ",\n" ++ jsArrItems indent xs

/-- Object fields of the pretty rendering, one per line. -/
def jsObjItems (indent : Nat) : List (String × JsValue) → String
  | [] => ""
  | [(k, v)] => indentSpaces indent ++ jsonQuote k ++ ": " ++ jsValueToString indent v
  | (k, v) :: fs =>
      indentSpaces indent ++ jsonQuote k ++ ": " ++ jsValueToString indent v ++ ",\n" ++
      jsObjItems indent fs

end

/-- `JSON.stringify(v, null, 2)` at top level. -/
def jsonStringify2 (v : JsValue) : String := jsValueToString 0 v

/-- JavaScript truthiness of a possibly-undefined string
(`undefined` and the empty string are falsy). -/
def jsTruthyStr : Option String → Bool
  | none => false
  | some s => !decide (s = "")

/-- JavaScript `String(x)` / template interpolation of a possibly-undefined string. -/
def jsStr : Option String → String
  | none => "undefined"
  | some s => s

/-- Truthiness filter on an optional string: the JavaScript pattern
`if (x) target.f = x`, which keeps only defined non-empty values. -/
def truthyStr : Option String → Option String
  | none => none
  | some s => if s = "" then none else some s

/-- JavaScript `x || d` on a possibly-undefined number: `undefined` and `0` both
fall back to the default. -/
def jsOrNum (o : Option Int) (d : Int) : Int :=
  match o with
  | some n => if n = 0 then d else n
  | none => d

/-- Primitive JavaScript value, for `unknown`-typed tool arguments. -/
inductive JsPrim where
  | str (s : String)
  | num (n : Int)
  | bool (b : Bool)
deriving DecidableEq

/-- JavaScript truthiness of a possibly-undefined primitive. -/
def jsTruthyPrim : Option JsPrim → Bool
  | none => false
  | some (.str s) => !decide (s = "")
  | some (.num n) => !decide (n = 0)
  | some (.bool b) => b

/-- JavaScript `String(x)` on a possibly-undefined primitive. -/
def jsStringPrim : Option JsPrim → String
  | none => "undefined"
  | some (.str s) => s
  | some (.num n) => toString n
  | some (.bool b) => if b then "true" else "false"

/-- The `replace(/^@/, "")` step of `sanitizeId`: drop one leading `@` if present. -/
def stripLeadingAt (s : String) : String :=
  match s.data with
  | c :: rest => if c = '@' then String.mk rest else s
  | [] => s

/-- `sanitizeId` from the second server variant (`server.ts` line 497):
`encodeURIComponent(id.replace(/^@/, ""))`. -/
def sanitizeId (id : String) : String := encodeURIComponent (stripLeadingAt id)

/-- Upstream base URL (`API_BASE_URL` in all three implementations). -/
def API_BASE_URL : String := "https://apiv3.creatordb.app"

/-- Decoded upstream response body (`UpstreamResponse` in the spec): `success`,
opaque `data`, `traceId`, `timestamp`, and on failure `errorDescription` /
`message`; every field may be absent. -/
structure UpstreamBody where
  success : Option Bool := none
  data : Option JsValue := none
  traceId : Option String := none
  timestamp : Option Int := none
  errorDescription : Option String := none
  message : Option String := none

/-- Outcome of one `fetch` + `response.json()`: either the transport/decoding
step rejects with a message, or it yields an HTTP status and a decoded body.
A value of type `String → NetResult` models the network as a function of the
requested URL. -/
inductive NetResult where
  | fail (msg : String)
  | resp (status : Nat) (body : UpstreamBody)

/-- `response.ok`: HTTP status in the 200–299 range. -/
def responseOk (status : Nat) : Bool := decide (200 ≤ status) && decide (status ≤ 299)

/-- Failure test of the response classifier:
`!response.ok || data.success === false` (identical in all three implementations). -/
def failCond (status : Nat) (data : UpstreamBody) : Bool :=
  !responseOk status || data.success == some false

/-- Error-message fallback chain of the classifier:
`data.errorDescription || data.message || `API Error: ${response.status}``
(identical in all three implementations; `||` skips absent and empty strings). -/
def apiErrorMessage (data : UpstreamBody) (status : Nat) : String :=
  ((truthyStr data.errorDescription).orElse fun _ => truthyStr data.message).getD
    ("API Error: " ++ toString status)

/-- Response classifier of the first server variant and the MCP shell
(`server.ts` lines 53–59, `index.ts` lines 303–309): on failure throw a plain
`Error` with the fallback message, otherwise return the decoded body unchanged. -/
def classify (status : Nat) (data : UpstreamBody) : Except String UpstreamBody :=
  if failCond status data then .error (apiErrorMessage data status)
  else .ok data

/-- Modelled from the spec (§4.4): the error string is `decodedBody.errorDescription`,
falling back to `decodedBody.message`, falling back to `"API Error: <status>"`. -/
def specFallbackMessage (data : UpstreamBody) (status : Nat) : String :=
  match truthyStr data.errorDescription with
  | some e => e
  | none =>
    match truthyStr data.message with
    | some m => m
    | none => "API Error: " ++ toString status

/-- `makeApiRequest` of the first server variant and the MCP shell: build the
URL from the base URL and endpoint, fetch, decode, classify; a transport
failure propagates as a thrown error message. -/
def makeApiRequestV1 (net : String → NetResult) (endpoint : String) :
    Except String UpstreamBody :=
  match net (API_BASE_URL ++ endpoint) with
  | .fail m => .error m
  | .resp status data => classify status data

/-- `ApiError` of the second server variant (`server.ts` lines 489–495):
an error carrying a message and an HTTP status. -/
structure ApiError where
  message : String
  status : Nat
deriving DecidableEq

/-- Errors thrown inside the second variant's `makeApiRequest`: an `ApiError`,
or a plain error from the transport itself. -/
inductive ThrownV2 where
  | api (e : ApiError)
  | plain (msg : String)
deriving DecidableEq

/-- Response classifier of the second server variant (`server.ts` lines
527–532): same failure test and message chain, but the thrown `ApiError`
carries `response.status`. -/
def classifyV2 (status : Nat) (data : UpstreamBody) : Except ThrownV2 UpstreamBody :=
  if failCond status data then .error (.api ⟨apiErrorMessage data status, status⟩)
  else .ok data

/-- `makeApiRequest` of the second server variant (`server.ts` lines 501–535):
if the API key is falsy, throw `ApiError(.., 500)` before any network call;
otherwise fetch, decode and classify. -/
def makeApiRequestV2 (key : Option String) (net : String → NetResult)
    (endpoint : String) : Except ThrownV2 UpstreamBody :=
  if jsTruthyStr key then
    match net (API_BASE_URL ++ endpoint) with
    | .fail m => .error (.plain m)
    | .resp status data => classifyV2 status data
  else .error (.api ⟨"CREATORDB_API_KEY environment variable is required", 500⟩)

/-- HTTP response sent back to the caller by a route handler: either
`res.json(result)` (status 200) or `res.status(st).json({success:false, error})`. -/
inductive HttpReply where
  | ok (body : UpstreamBody)
  | err (status : Nat) (error : String)

/-- Route-level error handling of the first server variant: every `catch`
branch answers `res.status(500).json({success:false, error: message})`. -/
def getRouteReplyV1 (net : String → NetResult) (endpoint : String) : HttpReply :=
  match makeApiRequestV1 net endpoint with
  | .ok body => .ok body
  | .error m => .err 500 m

/-- Route-level error handling of the second server variant (`handleError`,
`server.ts` lines 537–543): an `ApiError` answers with its own status, any
other error answers with 500. -/
def getRouteReplyV2 (key : Option String) (net : String → NetResult)
    (endpoint : String) : HttpReply :=
  match makeApiRequestV2 key net endpoint with
  | .ok body => .ok body
  | .error (.api e) => .err e.status e.message
  | .error (.plain m) => .err 500 m

/-- What the process does at module load time. -/
inductive StartupAction where
  | exitWithCode (code : Nat)
  | serve
deriving DecidableEq

/-- Startup key check of the first server variant (`server.ts` lines 11–14):
a falsy `CREATORDB_API_KEY` makes the process exit with code 1. -/
def startupCheckV1 (key : Option String) : StartupAction :=
  if !jsTruthyStr key then .exitWithCode 1 else .serve

/-- Startup key check of the MCP shell (`index.ts` lines 253–256): identical
to the first server variant. -/
def startupCheckMcp (key : Option String) : StartupAction :=
  if !jsTruthyStr key then .exitWithCode 1 else .serve

/-- Startup behavior of the second server variant: the module contains no
startup key check at all, so the app is built and served regardless of the key
(the key is only tested inside `makeApiRequest`, per request). -/
def startupCheckV2 (_key : Option String) : StartupAction := .serve

/-- Filter comparison operator (`"in" | ">" | "=" | "<"`). -/
inductive FilterOp where
  | opIn
  | gt
  | eq
  | lt
deriving DecidableEq

/-- Filter value (`string | number | string[] | boolean`). -/
inductive FilterValue where
  | str (s : String)
  | num (n : Int)
  | strs (l : List String)
  | bool (b : Bool)
deriving DecidableEq

/-- `SearchFilter` (identical interface in all three implementations). -/
structure SearchFilter where
  filterName : String
  op : FilterOp
  value : FilterValue
  isFuzzySearch : Option Bool := none
deriving DecidableEq

/-- `SearchRequest` body as forwarded upstream.  `filters` is optional only to
model the MCP shell's unchecked `args.filters as SearchFilter[]` cast, whose
value may be `undefined` and is then dropped by `JSON.stringify`; the HTTP
handlers always supply it. -/
structure SearchRequest where
  filters : Option (List SearchFilter)
  pageSize : Int
  offset : Int
  sortBy : Option String := none
  desc : Option Bool := none
deriving DecidableEq

/-- JSON body of a POST request as forwarded upstream: a structured search
body, or the `{query, pageSize, offset}` natural-language body. -/
inductive RequestBody where
  | search (r : SearchRequest)
  | nls (query : Option String) (pageSize : Int) (offset : Int)
deriving DecidableEq

/-- One outbound upstream call: method, endpoint, and JSON body for POST. -/
inductive ApiCall where
  | get (endpoint : String)
  | post (endpoint : String) (body : RequestBody)
deriving DecidableEq

/-- What an HTTP route handler does before anything touches the network:
either answer the caller immediately (`res.status(st).json({success:false,
error})`, no outbound call) or issue exactly one outbound call. -/
inductive HandlerStep where
  | respond (status : Nat) (error : String)
  | call (c : ApiCall)
deriving DecidableEq

/-- Required-parameter guard shared by every GET route handler:
`if (!param) return res.status(400).json({success:false, error: msg});`
followed by the call built from `String(param)`. -/
def requireId (v : Option String) (missing : String) (k : String → HandlerStep) : HandlerStep :=
  if !jsTruthyStr v then .respond 400 missing else k (jsStr v)

/-- Arguments of an HTTP search route body (`req.body` after JSON parsing). -/
structure SearchArgs where
  filters : Option (List SearchFilter) := none
  pageSize : Option Int := none
  offset : Option Int := none
  sortBy : Option String := none
  desc : Option Bool := none
deriving DecidableEq

/-- Search route handler, identical in both server variants (`server.ts`
lines 152–164 and 635–647 and the youtube/tiktok copies): destructuring
defaults `pageSize = 20`, `offset = 0`, `desc = true` apply only when the
field is absent; `if (sortBy)` keeps only truthy values; `desc` is always
written back since after destructuring it is never `undefined`. -/
def searchStep (endpoint : String) (body : SearchArgs) : HandlerStep :=
  match body.filters with
  | none => .respond 400 "filters is required"
  | some fs =>
      .call (.post endpoint (.search
        { filters := some fs
          pageSize := body.pageSize.getD 20
          offset := body.offset.getD 0
          sortBy := truthyStr body.sortBy
          desc := some (body.desc.getD true) }))

/-- Natural-language-search route handler, identical in both server variants:
`const {query, pageSize = 20, offset = 0} = req.body; if (!query) 400;`. -/
def nlsStep (endpoint : String) (query : Option String) (pageSize offset : Option Int) :
    HandlerStep :=
  if !jsTruthyStr query then .respond 400 "query is required"
  else .call (.post endpoint (.nls query (pageSize.getD 20) (offset.getD 0)))

/-- Usage route handler, identical in both server variants (`server.ts` lines
62–68 and 545–551): `start`/`end` are appended to a `URLSearchParams` only
when truthy, and the query string is attached only when non-empty. -/
def usageStep (start endDate : Option String) : HandlerStep :=
  let params :=
    (if jsTruthyStr start then [("start", jsStr start)] else []) ++
    (if jsTruthyStr endDate then [("end", jsStr endDate)] else [])
  let queryString := urlParamsToString params
  .call (.get ("/usage" ++ (if queryString = "" then "" else "?" ++ queryString)))

/-- GET /api/instagram/profile, first variant: raw interpolation of `uniqueId`. -/
def instagramProfileStepV1 (uniqueId : Option String) : HandlerStep :=
  requireId uniqueId "uniqueId is required" fun u =>
    .call (.get ("/instagram/profile?uniqueId=" ++ u))

/-- GET /api/instagram/contact, first variant. -/
def instagramContactStepV1 (uniqueId : Option String) : HandlerStep :=
  requireId uniqueId "uniqueId is required" fun u =>
    .call (.get ("/instagram/contact?uniqueId=" ++ u))

/-- GET /api/instagram/content-detail, first variant. -/
def instagramContentDetailStepV1 (contentId : Option String) : HandlerStep :=
  requireId contentId "contentId is required" fun c =>
    .call (.get ("/instagram/content-detail?contentId=" ++ c))

/-- GET /api/instagram/performance, first variant. -/
def instagramPerformanceStepV1 (uniqueId : Option String) : HandlerStep :=
  requireId uniqueId "uniqueId is required" fun u =>
    .call (.get ("/instagram/performance?uniqueId=" ++ u))

/-- GET /api/instagram/performance-history, first variant. -/
def instagramPerformanceHistoryStepV1 (uniqueId : Option String) : HandlerStep :=
  requireId uniqueId "uniqueId is required" fun u =>
    .call (.get ("/instagram/performance-history?uniqueId=" ++ u))

/-- GET /api/instagram/sponsorship, first variant. -/
def instagramSponsorshipStepV1 (uniqueId : Option String) : HandlerStep :=
  requireId uniqueId "uniqueId is required" fun u =>
    .call (.get ("/instagram/sponsorship?uniqueId=" ++ u))

/-- GET /api/instagram/audience, first variant. -/
def instagramAudienceStepV1 (uniqueId : Option String) : HandlerStep :=
  requireId uniqueId "uniqueId is required" fun u =>
    .call (.get ("/instagram/audience?uniqueId=" ++ u))

/-- GET /api/youtube/profile, first variant: raw interpolation of `channelId`. -/
def youtubeProfileStepV1 (channelId : Option String) : HandlerStep :=
  requireId channelId "channelId is required" fun c =>
    .call (.get ("/youtube/profile?channelId=" ++ c))

/-- GET /api/youtube/performance, first variant. -/
def youtubePerformanceStepV1 (channelId : Option String) : HandlerStep :=
  requireId channelId "channelId is required" fun c =>
    .call (.get ("/youtube/performance?channelId=" ++ c))

/-- GET /api/youtube/performance-history, first variant. -/
def youtubePerformanceHistoryStepV1 (channelId : Option String) : HandlerStep :=
  requireId channelId "channelId is required" fun c =>
    .call (.get ("/youtube/performance-history?channelId=" ++ c))

/-- GET /api/youtube/content-detail, first variant. -/
def youtubeContentDetailStepV1 (contentId : Option String) : HandlerStep :=
  requireId contentId "contentId is required" fun c =>
    .call (.get ("/youtube/content-detail?contentId=" ++ c))

/-- GET /api/youtube/sponsorship, first variant. -/
def youtubeSponsorshipStepV1 (channelId : Option String) : HandlerStep :=
  requireId channelId "channelId is required" fun c =>
    .call (.get ("/youtube/sponsorship?channelId=" ++ c))

/-- GET /api/youtube/contact, first variant. -/
def youtubeContactStepV1 (channelId : Option String) : HandlerStep :=
  requireId channelId "channelId is required" fun c =>
    .call (.get ("/youtube/contact?channelId=" ++ c))

/-- GET /api/youtube/audience, first variant. -/
def youtubeAudienceStepV1 (channelId : Option String) : HandlerStep :=
  requireId channelId "channelId is required" fun c =>
    .call (.get ("/youtube/audience?channelId=" ++ c))

/-- GET /api/tiktok/profile, first variant. -/
def tiktokProfileStepV1 (uniqueId : Option String) : HandlerStep :=
  requireId uniqueId "uniqueId is required" fun u =>
    .call (.get ("/tiktok/profile?uniqueId=" ++ u))

/-- GET /api/tiktok/contact, first variant. -/
def tiktokContactStepV1 (uniqueId : Option String) : HandlerStep :=
  requireId uniqueId "uniqueId is required" fun u =>
    .call (.get ("/tiktok/contact?uniqueId=" ++ u))

/-- GET /api/tiktok/performance, first variant. -/
def tiktokPerformanceStepV1 (uniqueId : Option String) : HandlerStep :=
  requireId uniqueId "uniqueId is required" fun u =>
    .call (.get ("/tiktok/performance?uniqueId=" ++ u))

/-- GET /api/tiktok/performance-history, first variant. -/
def tiktokPerformanceHistoryStepV1 (uniqueId : Option String) : HandlerStep :=
  requireId uniqueId "uniqueId is required" fun u =>
    .call (.get ("/tiktok/performance-history?uniqueId=" ++ u))

/-- GET /api/tiktok/content-detail, first variant. -/
def tiktokContentDetailStepV1 (contentId : Option String) : HandlerStep :=
  requireId contentId "contentId is required" fun c =>
    .call (.get ("/tiktok/content-detail?contentId=" ++ c))

/-- GET /api/tiktok/audience, first variant. -/
def tiktokAudienceStepV1 (uniqueId : Option String) : HandlerStep :=
  requireId uniqueId "uniqueId is required" fun u =>
    .call (.get ("/tiktok/audience?uniqueId=" ++ u))

/-- GET /api/instagram/profile, second variant (`server.ts` line 558):
`uniqueId` goes through `sanitizeId`. -/
def instagramProfileStepV2 (uniqueId : Option String) : HandlerStep :=
  requireId uniqueId "uniqueId is required" fun u =>
    .call (.get ("/instagram/profile?uniqueId=" ++ sanitizeId u))

/-- GET /api/instagram/contact, second variant. -/
def instagramContactStepV2 (uniqueId : Option String) : HandlerStep :=
  requireId uniqueId "uniqueId is required" fun u =>
    .call (.get ("/instagram/contact?uniqueId=" ++ sanitizeId u))

/-- GET /api/instagram/content-detail, second variant (`server.ts` line 580):
`contentId` goes through `encodeURIComponent`, not `sanitizeId`. -/
def instagramContentDetailStepV2 (contentId : Option String) : HandlerStep :=
  requireId contentId "contentId is required" fun c =>
    .call (.get ("/instagram/content-detail?contentId=" ++ encodeURIComponent c))

/-- GET /api/instagram/performance, second variant. -/
def instagramPerformanceStepV2 (uniqueId : Option String) : HandlerStep :=
  requireId uniqueId "uniqueId is required" fun u =>
    .call (.get ("/instagram/performance?uniqueId=" ++ sanitizeId u))

/-- GET /api/instagram/performance-history, second variant. -/
def instagramPerformanceHistoryStepV2 (uniqueId : Option String) : HandlerStep :=
  requireId uniqueId "uniqueId is required" fun u =>
    .call (.get ("/instagram/performance-history?uniqueId=" ++ sanitizeId u))

/-- GET /api/instagram/sponsorship, second variant. -/
def instagramSponsorshipStepV2 (uniqueId : Option String) : HandlerStep :=
  requireId uniqueId "uniqueId is required" fun u =>
    .call (.get ("/instagram/sponsorship?uniqueId=" ++ sanitizeId u))

/-- GET /api/instagram/audience, second variant. -/
def instagramAudienceStepV2 (uniqueId : Option String) : HandlerStep :=
  requireId uniqueId "uniqueId is required" fun u =>
    .call (.get ("/instagram/audience?uniqueId=" ++ sanitizeId u))

/-- GET /api/youtube/profile, second variant (`server.ts` line 669):
`channelId` goes through `encodeURIComponent`, not `sanitizeId`. -/
def youtubeProfileStepV2 (channelId : Option String) : HandlerStep :=
  requireId channelId "channelId is required" fun c =>
    .call (.get ("/youtube/profile?channelId=" ++ encodeURIComponent c))

/-- GET /api/youtube/performance, second variant. -/
def youtubePerformanceStepV2 (channelId : Option String) : HandlerStep :=
  requireId channelId "channelId is required" fun c =>
    .call (.get ("/youtube/performance?channelId=" ++ encodeURIComponent c))

/-- GET /api/youtube/performance-history, second variant. -/
def youtubePerformanceHistoryStepV2 (channelId : Option String) : HandlerStep :=
  requireId channelId "channelId is required" fun c =>
    .call (.get ("/youtube/performance-history?channelId=" ++ encodeURIComponent c))

/-- GET /api/youtube/content-detail, second variant. -/
def youtubeContentDetailStepV2 (contentId : Option String) : HandlerStep :=
  requireId contentId "contentId is required" fun c =>
    .call (.get ("/youtube/content-detail?contentId=" ++ encodeURIComponent c))

/-- GET /api/youtube/sponsorship, second variant. -/
def youtubeSponsorshipStepV2 (channelId : Option String) : HandlerStep :=
  requireId channelId "channelId is required" fun c =>
    .call (.get ("/youtube/sponsorship?channelId=" ++ encodeURIComponent c))

/-- GET /api/youtube/contact, second variant. -/
def youtubeContactStepV2 (channelId : Option String) : HandlerStep :=
  requireId channelId "channelId is required" fun c =>
    .call (.get ("/youtube/contact?channelId=" ++ encodeURIComponent c))

/-- GET /api/youtube/audience, second variant. -/
def youtubeAudienceStepV2 (channelId : Option String) : HandlerStep :=
  requireId channelId "channelId is required" fun c =>
    .call (.get ("/youtube/audience?channelId=" ++ encodeURIComponent c))

/-- GET /api/tiktok/profile, second variant: `uniqueId` through `sanitizeId`. -/
def tiktokProfileStepV2 (uniqueId : Option String) : HandlerStep :=
  requireId uniqueId "uniqueId is required" fun u =>
    .call (.get ("/tiktok/profile?uniqueId=" ++ sanitizeId u))

/-- GET /api/tiktok/contact, second variant. -/
def tiktokContactStepV2 (uniqueId : Option String) : HandlerStep :=
  requireId uniqueId "uniqueId is required" fun u =>
    .call (.get ("/tiktok/contact?uniqueId=" ++ sanitizeId u))

/-- GET /api/tiktok/performance, second variant. -/
def tiktokPerformanceStepV2 (uniqueId : Option String) : HandlerStep :=
  requireId uniqueId "uniqueId is required" fun u =>
    .call (.get ("/tiktok/performance?uniqueId=" ++ sanitizeId u))

/-- GET /api/tiktok/performance-history, second variant. -/
def tiktokPerformanceHistoryStepV2 (uniqueId : Option String) : HandlerStep :=
  requireId uniqueId "uniqueId is required" fun u =>
    .call (.get ("/tiktok/performance-history?uniqueId=" ++ sanitizeId u))

/-- GET /api/tiktok/content-detail, second variant: `encodeURIComponent`. -/
def tiktokContentDetailStepV2 (contentId : Option String) : HandlerStep :=
  requireId contentId "contentId is required" fun c =>
    .call (.get ("/tiktok/content-detail?contentId=" ++ encodeURIComponent c))

/-- GET /api/tiktok/audience, second variant. -/
def tiktokAudienceStepV2 (uniqueId : Option String) : HandlerStep :=
  requireId uniqueId "uniqueId is required" fun u =>
    .call (.get ("/tiktok/audience?uniqueId=" ++ sanitizeId u))

/-- Argument record of one MCP tool call (`args: Record<string, unknown>`),
restricted to the keys the 31 tools read.  Every field may be absent; `start`
and `endTime` (the `end` key of `get_api_usage`, renamed because `end` is a
Lean keyword) are left `unknown`-typed since the handler stringifies them. -/
structure ToolArgs where
  uniqueId : Option String := none
  channelId : Option String := none
  contentId : Option String := none
  start : Option JsPrim := none
  endTime : Option JsPrim := none
  filters : Option (List SearchFilter) := none
  pageSize : Option Int := none
  offset : Option Int := none
  sortBy : Option String := none
  desc : Option Bool := none
  query : Option String := none
deriving DecidableEq

/-- Search body built by the MCP shell's three `*_search` cases (`index.ts`
lines 896–902 and copies): `pageSize: (args.pageSize as number) || 20` and
`offset: (args.offset as number) || 0` use `||` (truthiness, not presence);
`if (args.sortBy)` keeps only truthy values; `if (args.desc !== undefined)`
writes `desc` back exactly when present, with no default. -/
def mcpSearchBody (args : ToolArgs) : SearchRequest :=
  { filters := args.filters
    pageSize := jsOrNum args.pageSize 20
    offset := jsOrNum args.offset 0
    sortBy := truthyStr args.sortBy
    desc := args.desc }

/-- Natural-language body built by the MCP shell's three `*_natural_language_search`
cases: `{query: args.query, pageSize: args.pageSize || 20, offset: args.offset || 0}`,
with no check that `query` is present. -/
def mcpNlsBody (args : ToolArgs) : RequestBody :=
  .nls args.query (jsOrNum args.pageSize 20) (jsOrNum args.offset 0)

/-- Usage endpoint built by the MCP shell's `get_api_usage` case (`index.ts`
lines 847–854): identical truthiness-guarded `URLSearchParams` construction. -/
def mcpUsageEndpoint (args : ToolArgs) : String :=
  let params :=
    (if jsTruthyPrim args.start then [("start", jsStringPrim args.start)] else []) ++
    (if jsTruthyPrim args.endTime then [("end", jsStringPrim args.endTime)] else [])
  let queryString := urlParamsToString params
  "/usage" ++ (if queryString = "" then "" else "?" ++ queryString)

/-- The 31 tool names of the MCP shell's `tools` table, in declaration order. -/
def toolNames : List String :=
  ["get_api_usage",
   "instagram_get_profile", "instagram_get_contact", "instagram_get_content_detail",
   "instagram_get_performance", "instagram_get_performance_history",
   "instagram_get_sponsorship", "instagram_get_audience", "instagram_search",
   "instagram_natural_language_search", "instagram_get_niches",
   "youtube_get_profile", "youtube_search", "youtube_get_performance",
   "youtube_get_performance_history", "youtube_get_content_detail",
   "youtube_get_sponsorship", "youtube_get_contact", "youtube_get_audience",
   "youtube_natural_language_search", "youtube_get_topics", "youtube_get_niches",
   "tiktok_get_profile", "tiktok_search", "tiktok_get_contact",
   "tiktok_get_performance", "tiktok_get_performance_history",
   "tiktok_get_content_detail", "tiktok_get_audience",
   "tiktok_natural_language_search", "tiktok_get_niches"]

/-- The `switch (name)` of the MCP shell's `handleToolCall` (`index.ts` lines
843–1041), up to the single outbound call: no case checks required parameters
(missing strings are interpolated as `"undefined"`), and the `default` case
throws `Unknown tool: <name>`. -/
def mcpToolStep (name : String) (args : ToolArgs) : Except String ApiCall :=
  if name = "get_api_usage" then .ok (.get (mcpUsageEndpoint args))
  else if name = "instagram_get_profile" then
    .ok (.get ("/instagram/profile?uniqueId=" ++ jsStr args.uniqueId))
  else if name = "instagram_get_contact" then
    .ok (.get ("/instagram/contact?uniqueId=" ++ jsStr args.uniqueId))
  else if name = "instagram_get_content_detail" then
    .ok (.get ("/instagram/content-detail?contentId=" ++ jsStr args.contentId))
  else if name = "instagram_get_performance" then
    .ok (.get ("/instagram/performance?uniqueId=" ++ jsStr args.uniqueId))
  else if name = "instagram_get_performance_history" then
    .ok (.get ("/instagram/performance-history?uniqueId=" ++ jsStr args.uniqueId))
  else if name = "instagram_get_sponsorship" then
    .ok (.get ("/instagram/sponsorship?uniqueId=" ++ jsStr args.uniqueId))
  else if name = "instagram_get_audience" then
    .ok (.get ("/instagram/audience?uniqueId=" ++ jsStr args.uniqueId))
  else if name = "instagram_search" then
    .ok (.post "/instagram/search" (.search (mcpSearchBody args)))
  else if name = "instagram_natural_language_search" then
    .ok (.post "/instagram/nls" (mcpNlsBody args))
  else if name = "instagram_get_niches" then .ok (.get "/instagram/niches")
  else if name = "youtube_get_profile" then
    .ok (.get ("/youtube/profile?channelId=" ++ jsStr args.channelId))
  else if name = "youtube_search" then
    .ok (.post "/youtube/search" (.search (mcpSearchBody args)))
  else if name = "youtube_get_performance" then
    .ok (.get ("/youtube/performance?channelId=" ++ jsStr args.channelId))
  else if name = "youtube_get_performance_history" then
    .ok (.get ("/youtube/performance-history?channelId=" ++ jsStr args.channelId))
  else if name = "youtube_get_content_detail" then
    .ok (.get ("/youtube/content-detail?contentId=" ++ jsStr args.contentId))
  else if name = "youtube_get_sponsorship" then
    .ok (.get ("/youtube/sponsorship?channelId=" ++ jsStr args.channelId))
  else if name = "youtube_get_contact" then
    .ok (.get ("/youtube/contact?channelId=" ++ jsStr args.channelId))
  else if name = "youtube_get_audience" then
    .ok (.get ("/youtube/audience?channelId=" ++ jsStr args.channelId))
  else if name = "youtube_natural_language_search" then
    .ok (.post "/youtube/nls" (mcpNlsBody args))
  else if name = "youtube_get_topics" then .ok (.get "/youtube/topics")
  else if name = "youtube_get_niches" then .ok (.get "/youtube/niches")
  else if name = "tiktok_get_profile" then
    .ok (.get ("/tiktok/profile?uniqueId=" ++ jsStr args.uniqueId))
  else if name = "tiktok_search" then
    .ok (.post "/tiktok/search" (.search (mcpSearchBody args)))
  else if name = "tiktok_get_contact" then
    .ok (.get ("/tiktok/contact?uniqueId=" ++ jsStr args.uniqueId))
  else if name = "tiktok_get_performance" then
    .ok (.get ("/tiktok/performance?uniqueId=" ++ jsStr args.uniqueId))
  else if name = "tiktok_get_performance_history" then
    .ok (.get ("/tiktok/performance-history?uniqueId=" ++ jsStr args.uniqueId))
  else if name = "tiktok_get_content_detail" then
    .ok (.get ("/tiktok/content-detail?contentId=" ++ jsStr args.contentId))
  else if name = "tiktok_get_audience" then
    .ok (.get ("/tiktok/audience?uniqueId=" ++ jsStr args.uniqueId))
  else if name = "tiktok_natural_language_search" then
    .ok (.post "/tiktok/nls" (mcpNlsBody args))
  else if name = "tiktok_get_niches" then .ok (.get "/tiktok/niches")
  else .error ("Unknown tool: " ++ name)

/-- Endpoint of an outbound call. -/
def ApiCall.endpoint : ApiCall → String
  | .get e => e
  | .post e _ => e

/-- Result of one `handleToolCall` run before serialization: the thrown
`Unknown tool` error, a `makeApiRequest` error, or the decoded body. -/
def handleToolCallResult (name : String) (args : ToolArgs) (net : String → NetResult) :
    Except String UpstreamBody :=
  match mcpToolStep name args with
  | .error e => .error e
  | .ok c => makeApiRequestV1 net c.endpoint

/-- `JSON.stringify({success: false, error: message})`, the catch-all payload
of `handleToolCall` (`index.ts` lines 1044–1049). -/
def errJsonString (message : String) : String :=
  "\x7b\"success\":false,\"error\":" ++ jsonQuote message ++ "\x7d"

/-- JSON object rendering of a decoded upstream body, with absent fields
dropped (what `JSON.stringify` sees after `response.json()`). -/
def bodyToJsValue (b : UpstreamBody) : JsValue :=
  .obj (List.filterMap id
    [b.success.map fun v => ("success", JsValue.bool v),
     b.data.map fun v => ("data", v),
     b.traceId.map fun v => ("traceId", JsValue.str v),
     b.timestamp.map fun v => ("timestamp", JsValue.num v),
     b.errorDescription.map fun v => ("errorDescription", JsValue.str v),
     b.message.map fun v => ("message", JsValue.str v)])

/-- `handleToolCall` of the MCP shell (`index.ts` lines 836–1050): on success
return `JSON.stringify(result, null, 2)`; every thrown error — including the
`Unknown tool` default — is caught and returned as the string
`JSON.stringify({success:false, error: message})`. -/
def handleToolCall (name : String) (args : ToolArgs) (net : String → NetResult) : String :=
  match handleToolCallResult name args net with
  | .ok body => jsonStringify2 (bodyToJsValue body)
  | .error e => errJsonString e

/-- Status code of an HTTP reply (`res.json` answers with the default 200). -/
def HttpReply.status : HttpReply → Nat
  | .ok _ => 200
  | .err s _ => s

/-- Concrete upstream failure body: `{success:false, errorDescription:"quota exceeded"}`. -/
def quotaBody : UpstreamBody := { success := some false, errorDescription := some "quota exceeded" }

/-- Concrete network behavior: every request is answered with HTTP 429 and `quotaBody`. -/
def netQuota : String → NetResult := fun _ => .resp 429 quotaBody

/-- Concrete structured filter used in search scenarios. -/
def sampleFilter : SearchFilter := ⟨"totalFollowers", .gt, .num 100000, none⟩

/-- Helper: the required-parameter guard passes a defined non-empty value through. -/
theorem requireId_some (s : String) (h : s ≠ "") (m : String) (k : String → HandlerStep) :
    requireId (some s) m k = k s := by
  simp [requireId, jsTruthyStr, jsStr, h]

/-- Helper: the classifier's failure test holds exactly for non-2xx statuses or
an explicit `success:false`. -/
theorem failCond_iff (s : Nat) (b : UpstreamBody) :
    failCond s b = true ↔ (¬ (200 ≤ s ∧ s ≤ 299) ∨ b.success = some false) := by
  simp [failCond, responseOk, not_and_or]
  constructor
  · rintro ((h | h) | h)
    · exact Or.inl (by omega)
    · exact Or.inl (by omega)
    · exact Or.inr h
  · rintro (h | h)
    · by_cases h2 : 200 ≤ s
      · exact Or.inl (Or.inr (h h2))
      · exact Or.inl (Or.inl (by omega))
    · exact Or.inr h

/-- Helper: the `||` message chain agrees with the spec's three-tier fallback. -/
theorem fallback_eq (b : UpstreamBody) (s : Nat) :
    apiErrorMessage b s = specFallbackMessage b s := by
  unfold apiErrorMessage specFallbackMessage
  cases h1 : truthyStr b.errorDescription <;> cases h2 : truthyStr b.message <;>
    simp [Option.orElse, h1, h2]

/-- Helper: rebuilding a string from its character list is the identity. -/
theorem string_mk_data (s : String) : String.mk s.data = s := by
  cases s
  rfl

/-- Claim C1: for every HTTP status and decoded body, the classifier reports
failure iff the status is outside 200–299 or the body's `success` field is
exactly `false`; on failure the message is `errorDescription`, falling back to
`message`, falling back to `API Error: <status>`; otherwise the full decoded
body is returned unchanged. -/
theorem classify_success_failure_spec (s : Nat) (b : UpstreamBody) :
    ((∃ e, classify s b = Except.error e) ↔
      (¬ (200 ≤ s ∧ s ≤ 299) ∨ b.success = some false))
    ∧ (∀ e, classify s b = Except.error e → e = specFallbackMessage b s)
    ∧ ((200 ≤ s ∧ s ≤ 299) → b.success ≠ some false → classify s b = Except.ok b) := by
  by_cases hc : failCond s b = true
  · have hcl : classify s b = Except.error (apiErrorMessage b s) := by
      simp [classify, hc]
    refine ⟨⟨fun _ => (failCond_iff s b).mp hc, fun _ => ⟨apiErrorMessage b s, hcl⟩⟩, ?_, ?_⟩
    · intro e he
      rw [hcl] at he
      injection he with h
      subst h
      exact fallback_eq b s
    · intro h1 h2
      rcases (failCond_iff s b).mp hc with h | h
      · exact absurd h1 h
      · exact absurd h h2
  · have hcl : classify s b = Except.ok b := by
      simp [classify, hc]
    refine ⟨⟨?_, ?_⟩, ?_, fun _ _ => hcl⟩
    · rintro ⟨e, he⟩
      rw [hcl] at he
      exact Except.noConfusion he
    · intro h
      exact absurd ((failCond_iff s b).mpr h) hc
    · intro e he
      rw [hcl] at he
      exact Except.noConfusion he

/-- Witness for C1: the classifier applied to a concrete 429 quota failure and
to a concrete 200 success. -/
theorem classify_success_failure_spec_witness :
    (∃ e, classify 429 quotaBody = Except.error e)
    ∧ classify 200 { success := some true } = Except.ok { success := some true } :=
  ⟨(classify_success_failure_spec 429 quotaBody).1.mpr (Or.inr rfl),
   (classify_success_failure_spec 200 { success := some true }).2.2 (by decide) (by decide)⟩

/-- Claim C3: the identifier sanitizer is total, strips at most one leading `@`,
percent-encodes the result, passes the empty string through, and identifies
`"@tiktok"` with `"tiktok"`, both equal to the percent-encoded `"tiktok"`. -/
theorem sanitizeId_spec :
    (∀ s : String, sanitizeId (String.mk ('@' :: s.data)) = encodeURIComponent s)
    ∧ (∀ s : String, s.data.head? ≠ some '@' → sanitizeId s = encodeURIComponent s)
    ∧ sanitizeId "" = ""
    ∧ sanitizeId "@tiktok" = sanitizeId "tiktok"
    ∧ sanitizeId "tiktok" = encodeURIComponent "tiktok"
    ∧ sanitizeId "@tiktok" = "tiktok"
    ∧ sanitizeId "@@ab" = "%40ab" := by
  refine ⟨?_, ?_, rfl, by decide, by decide, by decide, by decide⟩
  · intro s
    have h : stripLeadingAt (String.mk ('@' :: s.data)) = String.mk s.data := rfl
    rw [sanitizeId, h, string_mk_data]
  · intro s h
    cases s with
    | mk l =>
      cases l with
      | nil => rfl
      | cons c rest =>
        simp at h
        simp [sanitizeId, stripLeadingAt, h]

/-- Witness for C3: the generic clauses applied at concrete identifiers. -/
theorem sanitizeId_spec_witness :
    sanitizeId "tiktok" = encodeURIComponent "tiktok"
    ∧ sanitizeId (String.mk ('@' :: "tiktok".data)) = encodeURIComponent "tiktok" :=
  ⟨sanitizeId_spec.2.1 "tiktok" (by decide), sanitizeId_spec.1 "tiktok"⟩

/-- Counterexample for C2: with the upstream answering 429 `quota exceeded`,
the first server variant's catch branch replies with status 500, not with the
upstream's own 429. -/
theorem routeV1_loses_upstream_status_cex :
    (getRouteReplyV1 netQuota "/usage").status = 500
    ∧ (getRouteReplyV1 netQuota "/usage").status ≠ 429
    ∧ getRouteReplyV1 netQuota "/usage" = HttpReply.err 500 "quota exceeded" :=
  ⟨rfl, by decide, rfl⟩

/-- Amended C2: in the second server variant, an upstream application failure
is surfaced with the upstream's own status and the three-tier message; in the
first variant the same failure is always surfaced with status 500. -/
theorem upstream_status_preserved_amended (key : Option String) (net : String → NetResult)
    (ep : String) (s : Nat) (b : UpstreamBody)
    (hkey : jsTruthyStr key = true)
    (hnet : net (API_BASE_URL ++ ep) = NetResult.resp s b)
    (hfail : ¬ (200 ≤ s ∧ s ≤ 299) ∨ b.success = some false) :
    getRouteReplyV2 key net ep = HttpReply.err s (specFallbackMessage b s)
    ∧ getRouteReplyV1 net ep = HttpReply.err 500 (specFallbackMessage b s) := by
  have hc : failCond s b = true := (failCond_iff s b).mpr hfail
  constructor
  · simp [getRouteReplyV2, makeApiRequestV2, hkey, hnet, classifyV2, hc, fallback_eq]
  · simp [getRouteReplyV1, makeApiRequestV1, hnet, classify, hc, fallback_eq]

/-- Witness for C2's amended theorem: concrete 429 quota failure. -/
theorem upstream_status_preserved_amended_witness :
    getRouteReplyV2 (some "key") netQuota "/usage" = HttpReply.err 429 "quota exceeded" := by
  have h := (upstream_status_preserved_amended (some "key") netQuota "/usage" 429 quotaBody
    (by decide) rfl (Or.inr rfl)).1
  exact h

/-- Counterexample for C5: the MCP shell's `instagram_get_profile` case, called
with `uniqueId` omitted, performs no required-parameter check and still issues
an outbound call, interpolating the literal string `undefined` into the URL. -/
theorem mcp_missing_param_calls_cex :
    mcpToolStep "instagram_get_profile" {}
      = Except.ok (ApiCall.get "/instagram/profile?uniqueId=undefined") := rfl

/-- Amended C5: in both HTTP server variants every handler with a required
parameter, called with that parameter absent, answers 400 with an error naming
the parameter and issues no outbound call; the MCP shell performs no such check. -/
theorem http_missing_param_yields_400_amended :
    instagramProfileStepV1 none = .respond 400 "uniqueId is required"
    ∧ instagramContactStepV1 none = .respond 400 "uniqueId is required"
    ∧ instagramContentDetailStepV1 none = .respond 400 "contentId is required"
    ∧ instagramPerformanceStepV1 none = .respond 400 "uniqueId is required"
    ∧ instagramPerformanceHistoryStepV1 none = .respond 400 "uniqueId is required"
    ∧ instagramSponsorshipStepV1 none = .respond 400 "uniqueId is required"
    ∧ instagramAudienceStepV1 none = .respond 400 "uniqueId is required"
    ∧ youtubeProfileStepV1 none = .respond 400 "channelId is required"
    ∧ youtubePerformanceStepV1 none = .respond 400 "channelId is required"
    ∧ youtubePerformanceHistoryStepV1 none = .respond 400 "channelId is required"
    ∧ youtubeContentDetailStepV1 none = .respond 400 "contentId is required"
    ∧ youtubeSponsorshipStepV1 none = .respond 400 "channelId is required"
    ∧ youtubeContactStepV1 none = .respond 400 "channelId is required"
    ∧ youtubeAudienceStepV1 none = .respond 400 "channelId is required"
    ∧ tiktokProfileStepV1 none = .respond 400 "uniqueId is required"
    ∧ tiktokContactStepV1 none = .respond 400 "uniqueId is required"
    ∧ tiktokPerformanceStepV1 none = .respond 400 "uniqueId is required"
    ∧ tiktokPerformanceHistoryStepV1 none = .respond 400 "uniqueId is required"
    ∧ tiktokContentDetailStepV1 none = .respond 400 "contentId is required"
    ∧ tiktokAudienceStepV1 none = .respond 400 "uniqueId is required"
    ∧ instagramProfileStepV2 none = .respond 400 "uniqueId is required"
    ∧ instagramContactStepV2 none = .respond 400 "uniqueId is required"
    ∧ instagramContentDetailStepV2 none = .respond 400 "contentId is required"
    ∧ instagramPerformanceStepV2 none = .respond 400 "uniqueId is required"
    ∧ instagramPerformanceHistoryStepV2 none = .respond 400 "uniqueId is required"
    ∧ instagramSponsorshipStepV2 none = .respond 400 "uniqueId is required"
    ∧ instagramAudienceStepV2 none = .respond 400 "uniqueId is required"
    ∧ youtubeProfileStepV2 none = .respond 400 "channelId is required"
    ∧ youtubePerformanceStepV2 none = .respond 400 "channelId is required"
    ∧ youtubePerformanceHistoryStepV2 none = .respond 400 "channelId is required"
    ∧ youtubeContentDetailStepV2 none = .respond 400 "contentId is required"
    ∧ youtubeSponsorshipStepV2 none = .respond 400 "channelId is required"
    ∧ youtubeContactStepV2 none = .respond 400 "channelId is required"
    ∧ youtubeAudienceStepV2 none = .respond 400 "channelId is required"
    ∧ tiktokProfileStepV2 none = .respond 400 "uniqueId is required"
    ∧ tiktokContactStepV2 none = .respond 400 "uniqueId is required"
    ∧ tiktokPerformanceStepV2 none = .respond 400 "uniqueId is required"
    ∧ tiktokPerformanceHistoryStepV2 none = .respond 400 "uniqueId is required"
    ∧ tiktokContentDetailStepV2 none = .respond 400 "contentId is required"
    ∧ tiktokAudienceStepV2 none = .respond 400 "uniqueId is required"
    ∧ (∀ ep, searchStep ep {} = .respond 400 "filters is required")
    ∧ (∀ ep pageSize offset, nlsStep ep none pageSize offset = .respond 400 "query is required") :=
  ⟨rfl, rfl, rfl, rfl, rfl, rfl, rfl, rfl, rfl, rfl, rfl, rfl, rfl, rfl, rfl, rfl, rfl, rfl,
   rfl, rfl, rfl, rfl, rfl, rfl, rfl, rfl, rfl, rfl, rfl, rfl, rfl, rfl, rfl, rfl, rfl, rfl,
   rfl, rfl, rfl, rfl, fun _ => rfl, fun _ _ _ => rfl⟩

/-- Claim C7 evaluated at the failing inputs: a `start` parameter that is
present but falsy (empty string on the HTTP route, the number 0 in the MCP
shell) is dropped from the usage query string, while a truthy value is kept. -/
theorem usage_falsy_param_omitted_bug :
    usageStep (some "") none = .call (.get "/usage")
    ∧ mcpToolStep "get_api_usage" { start := some (JsPrim.num 0) }
        = Except.ok (.get "/usage")
    ∧ usageStep (some "1700000000000") none = .call (.get "/usage?start=1700000000000") :=
  ⟨rfl, rfl, rfl⟩

/-- Counterexample for C8: the second server variant performs no startup key
check — with the key absent it still serves, and each request then fails with
a per-request 500 `ApiError` instead of a startup refusal. -/
theorem v2_serves_without_key_cex :
    startupCheckV2 none = StartupAction.serve
    ∧ makeApiRequestV2 none netQuota "/usage"
        = Except.error (.api ⟨"CREATORDB_API_KEY environment variable is required", 500⟩) :=
  ⟨rfl, rfl⟩

/-- Amended C8: the first server variant and the MCP shell exit with code 1 at
startup when the key is absent; the second variant starts serving regardless
but fails every request before any outbound call when the key is absent. -/
theorem startup_key_check_amended :
    startupCheckV1 none = StartupAction.exitWithCode 1
    ∧ startupCheckMcp none = StartupAction.exitWithCode 1
    ∧ (∀ net ep, makeApiRequestV2 none net ep
        = Except.error (.api ⟨"CREATORDB_API_KEY environment variable is required", 500⟩))
    ∧ startupCheckV2 none = StartupAction.serve :=
  ⟨rfl, rfl, fun _ _ => rfl, rfl⟩

/-- Counterexample for C6: a search call with `pageSize` present as 0 is
forwarded by the MCP shell with `pageSize = 20` (and its absent `desc` is
omitted, not defaulted to `true`); a search call with `sortBy` present as the
empty string is forwarded by the HTTP handlers without `sortBy`. -/
theorem search_defaults_truthiness_cex :
    mcpToolStep "instagram_search" { filters := some [], pageSize := some 0 }
      = Except.ok (.post "/instagram/search" (.search ⟨some [], 20, 0, none, none⟩))
    ∧ searchStep "/instagram/search" { filters := some [], sortBy := some "" }
      = .call (.post "/instagram/search" (.search ⟨some [], 20, 0, none, some true⟩)) :=
  ⟨rfl, rfl⟩

/-- Amended C6: the HTTP search handlers apply the `pageSize`/`offset`/`desc`
defaults only when the field is absent and keep present falsy values, but omit
`sortBy` whenever it is absent or falsy; the MCP search cases replace falsy
`pageSize`/`offset` (such as 0) by the defaults, omit falsy `sortBy`, and
include `desc` exactly when present, with no default. -/
theorem search_body_defaults_amended :
    (∀ ep fs ps off sb d, searchStep ep ⟨some fs, some ps, some off, some sb, some d⟩
        = .call (.post ep (.search ⟨some fs, ps, off, if sb = "" then none else some sb, some d⟩)))
    ∧ (∀ ep fs, searchStep ep ⟨some fs, none, none, none, none⟩
        = .call (.post ep (.search ⟨some fs, 20, 0, none, some true⟩)))
    ∧ (∀ args, mcpToolStep "instagram_search" args
        = Except.ok (.post "/instagram/search" (.search (mcpSearchBody args))))
    ∧ (∀ args, mcpToolStep "youtube_search" args
        = Except.ok (.post "/youtube/search" (.search (mcpSearchBody args))))
    ∧ (∀ args, mcpToolStep "tiktok_search" args
        = Except.ok (.post "/tiktok/search" (.search (mcpSearchBody args))))
    ∧ (∀ n, jsOrNum (some n) 20 = if n = 0 then 20 else n)
    ∧ jsOrNum none 20 = 20
    ∧ (∀ args, (mcpSearchBody args).desc = args.desc)
    ∧ (∀ args, (mcpSearchBody args).sortBy = truthyStr args.sortBy)
    ∧ truthyStr (some "") = none :=
  ⟨fun _ _ _ _ _ _ => rfl, fun _ _ => rfl, fun _ => rfl, fun _ => rfl, fun _ => rfl,
   fun _ => rfl, rfl, fun _ => rfl, fun _ => rfl, rfl⟩

/-- Counterexample for C9: a search call carrying 11 filters is not rejected —
the HTTP handler forwards all 11 filters upstream. -/
theorem filters_ceiling_unenforced_cex :
    searchStep "/instagram/search"
        ⟨some (List.replicate 11 sampleFilter), none, none, none, none⟩
      = .call (.post "/instagram/search"
          (.search ⟨some (List.replicate 11 sampleFilter), 20, 0, none, some true⟩))
    ∧ (List.replicate 11 sampleFilter).length = 11 :=
  ⟨rfl, rfl⟩

/-- Amended C9: the 10-filter ceiling is documented in the MCP tool description
but not enforced anywhere — every search dispatch forwards the given filters
list verbatim, whatever its length. -/
theorem filters_forwarded_verbatim_amended :
    (∀ ep fs, ∃ r, searchStep ep ⟨some fs, none, none, none, none⟩
        = .call (.post ep (.search r)) ∧ r.filters = some fs)
    ∧ (∀ args, ∃ r, mcpToolStep "instagram_search" args
        = Except.ok (.post "/instagram/search" (.search r)) ∧ r.filters = args.filters)
    ∧ (∀ args, ∃ r, mcpToolStep "youtube_search" args
        = Except.ok (.post "/youtube/search" (.search r)) ∧ r.filters = args.filters)
    ∧ (∀ args, ∃ r, mcpToolStep "tiktok_search" args
        = Except.ok (.post "/tiktok/search" (.search r)) ∧ r.filters = args.filters) :=
  ⟨fun _ _ => ⟨_, rfl, rfl⟩,
   fun args => ⟨mcpSearchBody args, rfl, rfl⟩,
   fun args => ⟨mcpSearchBody args, rfl, rfl⟩,
   fun args => ⟨mcpSearchBody args, rfl, rfl⟩⟩

/-- Counterexample for C4: in the second server variant the `channelId`
identifier is percent-encoded but not routed through `sanitizeId` (a leading
`@` is kept as `%40`), and in the first variant `uniqueId` is interpolated
into the URL with no encoding at all. -/
theorem channelId_not_sanitized_cex :
    youtubeProfileStepV2 (some "@x") = .call (.get "/youtube/profile?channelId=%40x")
    ∧ youtubeProfileStepV2 (some "@x")
        ≠ .call (.get ("/youtube/profile?channelId=" ++ sanitizeId "@x"))
    ∧ instagramProfileStepV1 (some "a&b") = .call (.get "/instagram/profile?uniqueId=a&b") :=
  ⟨rfl, by decide, rfl⟩

/-- Amended C4: in the second server variant, `uniqueId` parameters go through
`sanitizeId` while `channelId` and `contentId` parameters are percent-encoded
via `encodeURIComponent` with no `@`-stripping; in the first variant and in the
MCP shell every parameter is interpolated into the URL without any encoding. -/
theorem url_encoding_per_param_amended :
    (∀ s, s ≠ "" → instagramProfileStepV2 (some s)
        = .call (.get ("/instagram/profile?uniqueId=" ++ sanitizeId s)))
    ∧ (∀ s, s ≠ "" → instagramContactStepV2 (some s)
        = .call (.get ("/instagram/contact?uniqueId=" ++ sanitizeId s)))
    ∧ (∀ s, s ≠ "" → instagramContentDetailStepV2 (some s)
        = .call (.get ("/instagram/content-detail?contentId=" ++ encodeURIComponent s)))
    ∧ (∀ s, s ≠ "" → instagramPerformanceStepV2 (some s)
        = .call (.get ("/instagram/performance?uniqueId=" ++ sanitizeId s)))
    ∧ (∀ s, s ≠ "" → instagramPerformanceHistoryStepV2 (some s)
        = .call (.get ("/instagram/performance-history?uniqueId=" ++ sanitizeId s)))
    ∧ (∀ s, s ≠ "" → instagramSponsorshipStepV2 (some s)
        = .call (.get ("/instagram/sponsorship?uniqueId=" ++ sanitizeId s)))
    ∧ (∀ s, s ≠ "" → instagramAudienceStepV2 (some s)
        = .call (.get ("/instagram/audience?uniqueId=" ++ sanitizeId s)))
    ∧ (∀ s, s ≠ "" → youtubeProfileStepV2 (some s)
        = .call (.get ("/youtube/profile?channelId=" ++ encodeURIComponent s)))
    ∧ (∀ s, s ≠ "" → youtubePerformanceStepV2 (some s)
        = .call (.get ("/youtube/performance?channelId=" ++ encodeURIComponent s)))
    ∧ (∀ s, s ≠ "" → youtubePerformanceHistoryStepV2 (some s)
        = .call (.get ("/youtube/performance-history?channelId=" ++ encodeURIComponent s)))
    ∧ (∀ s, s ≠ "" → youtubeContentDetailStepV2 (some s)
        = .call (.get ("/youtube/content-detail?contentId=" ++ encodeURIComponent s)))
    ∧ (∀ s, s ≠ "" → youtubeSponsorshipStepV2 (some s)
        = .call (.get ("/youtube/sponsorship?channelId=" ++ encodeURIComponent s)))
    ∧ (∀ s, s ≠ "" → youtubeContactStepV2 (some s)
        = .call (.get ("/youtube/contact?channelId=" ++ encodeURIComponent s)))
    ∧ (∀ s, s ≠ "" → youtubeAudienceStepV2 (some s)
        = .call (.get ("/youtube/audience?channelId=" ++ encodeURIComponent s)))
    ∧ (∀ s, s ≠ "" → tiktokProfileStepV2 (some s)
        = .call (.get ("/tiktok/profile?uniqueId=" ++ sanitizeId s)))
    ∧ (∀ s, s ≠ "" → tiktokContactStepV2 (some s)
        = .call (.get ("/tiktok/contact?uniqueId=" ++ sanitizeId s)))
    ∧ (∀ s, s ≠ "" → tiktokPerformanceStepV2 (some s)
        = .call (.get ("/tiktok/performance?uniqueId=" ++ sanitizeId s)))
    ∧ (∀ s, s ≠ "" → tiktokPerformanceHistoryStepV2 (some s)
        = .call (.get ("/tiktok/performance-history?uniqueId=" ++ sanitizeId s)))
    ∧ (∀ s, s ≠ "" → tiktokContentDetailStepV2 (some s)
        = .call (.get ("/tiktok/content-detail?contentId=" ++ encodeURIComponent s)))
    ∧ (∀ s, s ≠ "" → tiktokAudienceStepV2 (some s)
        = .call (.get ("/tiktok/audience?uniqueId=" ++ sanitizeId s)))
    ∧ (∀ s, s ≠ "" → instagramProfileStepV1 (some s)
        = .call (.get ("/instagram/profile?uniqueId=" ++ s)))
    ∧ (∀ s, s ≠ "" → instagramContactStepV1 (some s)
        = .call (.get ("/instagram/contact?uniqueId=" ++ s)))
    ∧ (∀ s, s ≠ "" → instagramContentDetailStepV1 (some s)
        = .call (.get ("/instagram/content-detail?contentId=" ++ s)))
    ∧ (∀ s, s ≠ "" → instagramPerformanceStepV1 (some s)
        = .call (.get ("/instagram/performance?uniqueId=" ++ s)))
    ∧ (∀ s, s ≠ "" → instagramPerformanceHistoryStepV1 (some s)
        = .call (.get ("/instagram/performance-history?uniqueId=" ++ s)))
    ∧ (∀ s, s ≠ "" → instagramSponsorshipStepV1 (some s)
        = .call (.get ("/instagram/sponsorship?uniqueId=" ++ s)))
    ∧ (∀ s, s ≠ "" → instagramAudienceStepV1 (some s)
        = .call (.get ("/instagram/audience?uniqueId=" ++ s)))
    ∧ (∀ s, s ≠ "" → youtubeProfileStepV1 (some s)
        = .call (.get ("/youtube/profile?channelId=" ++ s)))
    ∧ (∀ s, s ≠ "" → youtubePerformanceStepV1 (some s)
        = .call (.get ("/youtube/performance?channelId=" ++ s)))
    ∧ (∀ s, s ≠ "" → youtubePerformanceHistoryStepV1 (some s)
        = .call (.get ("/youtube/performance-history?channelId=" ++ s)))
    ∧ (∀ s, s ≠ "" → youtubeContentDetailStepV1 (some s)
        = .call (.get ("/youtube/content-detail?contentId=" ++ s)))
    ∧ (∀ s, s ≠ "" → youtubeSponsorshipStepV1 (some s)
        = .call (.get ("/youtube/sponsorship?channelId=" ++ s)))
    ∧ (∀ s, s ≠ "" → youtubeContactStepV1 (some s)
        = .call (.get ("/youtube/contact?channelId=" ++ s)))
    ∧ (∀ s, s ≠ "" → youtubeAudienceStepV1 (some s)
        = .call (.get ("/youtube/audience?channelId=" ++ s)))
    ∧ (∀ s, s ≠ "" → tiktokProfileStepV1 (some s)
        = .call (.get ("/tiktok/profile?uniqueId=" ++ s)))
    ∧ (∀ s, s ≠ "" → tiktokContactStepV1 (some s)
        = .call (.get ("/tiktok/contact?uniqueId=" ++ s)))
    ∧ (∀ s, s ≠ "" → tiktokPerformanceStepV1 (some s)
        = .call (.get ("/tiktok/performance?uniqueId=" ++ s)))
    ∧ (∀ s, s ≠ "" → tiktokPerformanceHistoryStepV1 (some s)
        = .call (.get ("/tiktok/performance-history?uniqueId=" ++ s)))
    ∧ (∀ s, s ≠ "" → tiktokContentDetailStepV1 (some s)
        = .call (.get ("/tiktok/content-detail?contentId=" ++ s)))
    ∧ (∀ s, s ≠ "" → tiktokAudienceStepV1 (some s)
        = .call (.get ("/tiktok/audience?uniqueId=" ++ s)))
    ∧ (∀ args, mcpToolStep "instagram_get_profile" args
        = Except.ok (.get ("/instagram/profile?uniqueId=" ++ jsStr args.uniqueId)))
    ∧ (∀ args, mcpToolStep "instagram_get_contact" args
        = Except.ok (.get ("/instagram/contact?uniqueId=" ++ jsStr args.uniqueId)))
    ∧ (∀ args, mcpToolStep "instagram_get_content_detail" args
        = Except.ok (.get ("/instagram/content-detail?contentId=" ++ jsStr args.contentId)))
    ∧ (∀ args, mcpToolStep "instagram_get_performance" args
        = Except.ok (.get ("/instagram/performance?uniqueId=" ++ jsStr args.uniqueId)))
    ∧ (∀ args, mcpToolStep "instagram_get_performance_history" args
        = Except.ok (.get ("/instagram/performance-history?uniqueId=" ++ jsStr args.uniqueId)))
    ∧ (∀ args, mcpToolStep "instagram_get_sponsorship" args
        = Except.ok (.get ("/instagram/sponsorship?uniqueId=" ++ jsStr args.uniqueId)))
    ∧ (∀ args, mcpToolStep "instagram_get_audience" args
        = Except.ok (.get ("/instagram/audience?uniqueId=" ++ jsStr args.uniqueId)))
    ∧ (∀ args, mcpToolStep "youtube_get_profile" args
        = Except.ok (.get ("/youtube/profile?channelId=" ++ jsStr args.channelId)))
    ∧ (∀ args, mcpToolStep "youtube_get_performance" args
        = Except.ok (.get ("/youtube/performance?channelId=" ++ jsStr args.channelId)))
    ∧ (∀ args, mcpToolStep "youtube_get_performance_history" args
        = Except.ok (.get ("/youtube/performance-history?channelId=" ++ jsStr args.channelId)))
    ∧ (∀ args, mcpToolStep "youtube_get_content_detail" args
        = Except.ok (.get ("/youtube/content-detail?contentId=" ++ jsStr args.contentId)))
    ∧ (∀ args, mcpToolStep "youtube_get_sponsorship" args
        = Except.ok (.get ("/youtube/sponsorship?channelId=" ++ jsStr args.channelId)))
    ∧ (∀ args, mcpToolStep "youtube_get_contact" args
        = Except.ok (.get ("/youtube/contact?channelId=" ++ jsStr args.channelId)))
    ∧ (∀ args, mcpToolStep "youtube_get_audience" args
        = Except.ok (.get ("/youtube/audience?channelId=" ++ jsStr args.channelId)))
    ∧ (∀ args, mcpToolStep "tiktok_get_profile" args
        = Except.ok (.get ("/tiktok/profile?uniqueId=" ++ jsStr args.uniqueId)))
    ∧ (∀ args, mcpToolStep "tiktok_get_contact" args
        = Except.ok (.get ("/tiktok/contact?uniqueId=" ++ jsStr args.uniqueId)))
    ∧ (∀ args, mcpToolStep "tiktok_get_performance" args
        = Except.ok (.get ("/tiktok/performance?uniqueId=" ++ jsStr args.uniqueId)))
    ∧ (∀ args, mcpToolStep "tiktok_get_performance_history" args
        = Except.ok (.get ("/tiktok/performance-history?uniqueId=" ++ jsStr args.uniqueId)))
    ∧ (∀ args, mcpToolStep "tiktok_get_content_detail" args
        = Except.ok (.get ("/tiktok/content-detail?contentId=" ++ jsStr args.contentId)))
    ∧ (∀ args, mcpToolStep "tiktok_get_audience" args
        = Except.ok (.get ("/tiktok/audience?uniqueId=" ++ jsStr args.uniqueId))) :=
  ⟨fun s h => requireId_some s h _ _, fun s h => requireId_some s h _ _,
   fun s h => requireId_some s h _ _, fun s h => requireId_some s h _ _,
   fun s h => requireId_some s h _ _, fun s h => requireId_some s h _ _,
   fun s h => requireId_some s h _ _, fun s h => requireId_some s h _ _,
   fun s h => requireId_some s h _ _, fun s h => requireId_some s h _ _,
   fun s h => requireId_some s h _ _, fun s h => requireId_some s h _ _,
   fun s h => requireId_some s h _ _, fun s h => requireId_some s h _ _,
   fun s h => requireId_some s h _ _, fun s h => requireId_some s h _ _,
   fun s h => requireId_some s h _ _, fun s h => requireId_some s h _ _,
   fun s h => requireId_some s h _ _, fun s h => requireId_some s h _ _,
   fun s h => requireId_some s h _ _, fun s h => requireId_some s h _ _,
   fun s h => requireId_some s h _ _, fun s h => requireId_some s h _ _,
   fun s h => requireId_some s h _ _, fun s h => requireId_some s h _ _,
   fun s h => requireId_some s h _ _, fun s h => requireId_some s h _ _,
   fun s h => requireId_some s h _ _, fun s h => requireId_some s h _ _,
   fun s h => requireId_some s h _ _, fun s h => requireId_some s h _ _,
   fun s h => requireId_some s h _ _, fun s h => requireId_some s h _ _,
   fun s h => requireId_some s h _ _, fun s h => requireId_some s h _ _,
   fun s h => requireId_some s h _ _, fun s h => requireId_some s h _ _,
   fun s h => requireId_some s h _ _, fun s h => requireId_some s h _ _,
   fun _ => rfl, fun _ => rfl, fun _ => rfl, fun _ => rfl, fun _ => rfl,
   fun _ => rfl, fun _ => rfl, fun _ => rfl, fun _ => rfl, fun _ => rfl,
   fun _ => rfl, fun _ => rfl, fun _ => rfl, fun _ => rfl, fun _ => rfl,
   fun _ => rfl, fun _ => rfl, fun _ => rfl, fun _ => rfl, fun _ => rfl⟩

/-- Witness for C4's amended theorem: the second variant's instagram profile
handler applied to the concrete identifier `@tiktok`. -/
theorem url_encoding_per_param_amended_witness :
    instagramProfileStepV2 (some "@tiktok")
      = .call (.get "/instagram/profile?uniqueId=tiktok") := by
  have h := url_encoding_per_param_amended.1 "@tiktok" (by decide)
  exact h.trans (by decide)

/-- Helper: a name outside the tool table falls through every `switch` case to
the `default` branch, which throws `Unknown tool: <name>`. -/
theorem mcpToolStep_unknown (name : String) (args : ToolArgs) (h : name ∉ toolNames) :
    mcpToolStep name args = Except.error ("Unknown tool: " ++ name) := by
  simp only [toolNames, List.mem_cons, List.not_mem_nil, or_false, not_or] at h
  obtain ⟨h1, h2, h3, h4, h5, h6, h7, h8, h9, h10, h11, h12, h13, h14, h15, h16,
    h17, h18, h19, h20, h21, h22, h23, h24, h25, h26, h27, h28, h29, h30, h31⟩ := h
  simp [mcpToolStep, h1, h2, h3, h4, h5, h6, h7, h8, h9, h10, h11, h12, h13, h14, h15,
    h16, h17, h18, h19, h20, h21, h22, h23, h24, h25, h26, h27, h28, h29, h30, h31]

/-- Claim C10: `handleToolCall` is total — for every tool name (known or not)
and argument record it returns a string; an unknown name yields the serialized
`{success:false, error:"Unknown tool: <name>"}` payload, every internal error
is caught and serialized the same way, and every run produces either the
pretty-printed result or such an error payload. -/
theorem handleToolCall_total_spec (name : String) (args : ToolArgs) (net : String → NetResult) :
    (name ∉ toolNames → handleToolCall name args net = errJsonString ("Unknown tool: " ++ name))
    ∧ (∀ e, handleToolCallResult name args net = Except.error e →
        handleToolCall name args net = errJsonString e)
    ∧ ((∃ b, handleToolCallResult name args net = Except.ok b ∧
          handleToolCall name args net = jsonStringify2 (bodyToJsValue b))
       ∨ (∃ e, handleToolCallResult name args net = Except.error e ∧
          handleToolCall name args net = errJsonString e)) := by
  refine ⟨?_, ?_, ?_⟩
  · intro h
    have h2 : handleToolCallResult name args net = Except.error ("Unknown tool: " ++ name) := by
      unfold handleToolCallResult
      rw [mcpToolStep_unknown name args h]
    unfold handleToolCall
    rw [h2]
  · intro e he
    unfold handleToolCall
    rw [he]
  · cases hres : handleToolCallResult name args net with
    | ok b =>
      refine Or.inl ⟨b, rfl, ?_⟩
      unfold handleToolCall
      rw [hres]
    | error e =>
      refine Or.inr ⟨e, rfl, ?_⟩
      unfold handleToolCall
      rw [hres]

/-- Witness for C10: a concrete unknown tool name is answered with the
serialized error payload, and a concrete known call serializes its error. -/
theorem handleToolCall_total_spec_witness :
    handleToolCall "bogus_tool" {} netQuota = errJsonString "Unknown tool: bogus_tool" := by
  have h := (handleToolCall_total_spec "bogus_tool" {} netQuota).1 (by decide)
  exact h.trans (by decide)
